import Mathlib

/-!
Shallow embedding of the scoring engine of `src/utils/scoring.py`
(class `PhilmontScorer` and its helpers), together with proofs about it.

Conventions used throughout:
* SQLite rows are records whose nullable columns are `Option`-valued;
  Python truthiness of a nullable column is `tb` / `ti` below.
* Python `float` arithmetic on scores is modelled over `Rat` (all constants in
  the source are decimally exact).
* Python exceptions (`TypeError`, `ZeroDivisionError`, `IndexError`) are
  modelled with `Except String`.
* Every ordering step (SQL `ORDER BY`, Python `sorted` / `list.sort`) is a
  stable sort; it is modelled with `List.insertionSort`, which is stable.
-/

namespace PhilSelect

/-- Python 3 `round` on a float/rational: round half to even. -/
def pyRound (q : Rat) : Int :=
  let f := q.floor
  let frac := q - f
  if frac < 1 / 2 then f
  else if 1 / 2 < frac then f + 1
  else if f % 2 = 0 then f else f + 1

/-- Result of `Counter(scores).most_common(1)`: the first value, in order of
occurrence, whose multiplicity is maximal (`Counter` records keys in insertion
order and `most_common` sorts stably by count, so the first-encountered value of
maximal multiplicity wins; a later occurrence never displaces it because its
count is not strictly greater); `none` when `scores` is empty. -/
def mostCommonStep (scores : List Rat) (best : Option Rat) (v : Rat) : Option Rat :=
  match best with
  | none => some v
  | some b => if scores.count b < scores.count v then some v else some b

/-- The accumulation over the counter keys; see `mostCommonStep` for one step. -/
def mostCommon (scores : List Rat) : Option Rat :=
  scores.foldl (mostCommonStep scores) none

/-- Embedding of `PhilmontScorer._calculate_aggregate`.  The Python errors on an
empty list are modelled in `Except`: `Average` divides by `len(scores) == 0`;
`Median` indexes into the empty sorted list; `Mode` evaluates
`Counter([]).most_common(1)[0]`. -/
def _calculate_aggregate (scores : List Rat) (method : String) : Except String Rat :=
  if method = "Total" then .ok scores.sum
  else if method = "Average" then
    if scores.length = 0 then .error "ZeroDivisionError"
    else .ok (scores.sum / scores.length)
  else if method = "Median" then
    let sorted_scores := scores.insertionSort (· ≤ ·)
    let n := sorted_scores.length
    if n = 0 then .error "IndexError"
    else if n % 2 = 0 then
      .ok ((sorted_scores.getD (n / 2 - 1) 0 + sorted_scores.getD (n / 2) 0) / 2)
    else .ok (sorted_scores.getD (n / 2) 0)
  else if method = "Mode" then
    match mostCommon scores with
    | some v => .ok v
    | none => .error "IndexError"
  else .ok scores.sum

/-- Total (never-failing) version of `_calculate_aggregate`; it agrees with it on
every non-empty list (`_calculate_aggregate_eq_ok`), which is the only way the
source ever calls it from `get_program_scores` and `_calculate_peak_score`. -/
def aggValue (scores : List Rat) (method : String) : Rat :=
  if method = "Total" then scores.sum
  else if method = "Average" then scores.sum / scores.length
  else if method = "Median" then
    let sorted_scores := scores.insertionSort (· ≤ ·)
    let n := sorted_scores.length
    if n % 2 = 0 then (sorted_scores.getD (n / 2 - 1) 0 + sorted_scores.getD (n / 2) 0) / 2
    else sorted_scores.getD (n / 2) 0
  else if method = "Mode" then (mostCommon scores).getD 0
  else scores.sum

/-- Row of the `crew_members` table (columns used by the engine). -/
structure MemberRow where
  id : Nat
  crew_id : Nat
  age : Option Int
  skill_level : Option Int
deriving DecidableEq

/-- Row of the `programs` table. -/
structure ProgramRow where
  id : Nat
  name : String
deriving DecidableEq

/-- Row of the `program_scores` table. -/
structure ProgramScoreRow where
  program_id : Nat
  crew_id : Nat
  crew_member_id : Nat
  score : Rat
deriving DecidableEq

/-- Row of the `crew_preferences` table (columns read by the engine).  All
preference columns are nullable. -/
structure PrefsRow where
  crew_id : Nat
  adult_program_weight_enabled : Option Bool
  adult_program_weight_percent : Option Rat
  difficulty_challenging : Option Bool
  difficulty_rugged : Option Bool
  difficulty_strenuous : Option Bool
  difficulty_super_strenuous : Option Bool
  area_important : Option Bool
  area_rank_south : Option Int
  area_rank_central : Option Int
  area_rank_north : Option Int
  area_rank_valle_vidal : Option Int
  max_altitude_important : Option Bool
  total_elevation_gain_important : Option Bool
  altitude_change_important : Option Bool
  hike_out_preference : Option Bool
  hike_in_preference : Option Bool
  max_dry_camps : Option Int
  showers_required : Option Bool
  layovers_required : Option Bool
  prefer_low_starting_food : Option Bool
  prefer_shorter_resupply : Option Bool
  climb_baldy : Option Bool
  climb_phillips : Option Bool
  climb_tooth : Option Bool
  climb_inspiration_point : Option Bool
  climb_trail_peak : Option Bool
  climb_others : Option Bool
deriving DecidableEq

/-- Row of the `itineraries` table (columns read by the engine). -/
structure ItinRow where
  id : Nat
  itinerary_code : String
  trek_type : String
  difficulty : String
  distance : Option Rat
  max_altitude : Option Int
  total_elevation_gain : Option Int
  avg_daily_elevation_change : Option Int
  starts_at : String
  ends_at : String
  covers_south : Option Bool
  covers_central : Option Bool
  covers_north : Option Bool
  covers_valle_vidal : Option Bool
  dry_camps : Option Int
  trail_camps : Option Int
  days_food_from_base : Option Int
  max_days_food : Option Int
  baldy_mountain : Option Bool
  mount_phillips : Option Bool
  tooth_of_time : Option Bool
  inspiration_point : Option Bool
  trail_peak : Option Bool
  mountaineering : Option Bool
deriving DecidableEq

/-- Row of the `itinerary_programs` table. -/
structure ItinProgRow where
  itinerary_id : Nat
  program_id : Nat
  is_available : Option Int
  trek_type : String
deriving DecidableEq

/-- Row of the `itinerary_camps` table. -/
structure ItinCampRow where
  itinerary_id : Nat
  camp_id : Nat
  is_layover : Option Int
deriving DecidableEq

/-- Row of the `camps` table (column used by the engine). -/
structure CampRow where
  id : Nat
  has_showers : Option Bool
deriving DecidableEq

/-- Row of the `scoring_factors` table. -/
structure FactorRow where
  factor_code : String
  multiplier : Rat
  is_active : Bool
deriving DecidableEq

/-- The database state the scorer reads (the engine never writes). -/
structure DB where
  crew_preferences : List PrefsRow
  crew_members : List MemberRow
  programs : List ProgramRow
  program_scores : List ProgramScoreRow
  itineraries : List ItinRow
  itinerary_programs : List ItinProgRow
  itinerary_camps : List ItinCampRow
  camps : List CampRow
  scoring_factors : List FactorRow
deriving DecidableEq

/-- Python truthiness of a nullable boolean column (`None` is falsy). -/
def tb (b : Option Bool) : Bool := b.getD false

/-- Python truthiness of a nullable integer column (`None` and `0` are falsy). -/
def ti (i : Option Int) : Bool :=
  match i with
  | none => false
  | some n => decide (n ≠ 0)

/-- `crew_prefs.get(key, default)` for a boolean column: the Python default is used
only when the crew has no preference row at all (`crew_prefs == {}`); when a row
exists, the raw column value is used under truthiness (a NULL column is falsy). -/
def pgetB (p : Option PrefsRow) (f : PrefsRow → Option Bool) (d : Bool) : Bool :=
  match p with
  | none => d
  | some row => tb (f row)

/-- `SELECT * FROM crew_preferences WHERE crew_id = ?` followed by `fetchone()`
(also the body of `_get_crew_preferences`). -/
def fetchPrefs (db : DB) (crew_id : Nat) : Option PrefsRow :=
  (db.crew_preferences.filter (fun row => decide (row.crew_id = crew_id))).head?

/-- Embedding of `get_crew_skill_level`: the SQL
`SELECT AVG(skill_level) FROM crew_members WHERE crew_id = ? AND skill_level IS NOT NULL`
followed by `max(1, min(10, round(avg)))`.  SQL `AVG` is NULL (falsy) when no row
qualifies, and an average of `0.0` is also falsy; both fall back to 5. -/
def get_crew_skill_level (db : DB) (crew_id : Nat) : Int :=
  let skills := (db.crew_members.filter (fun m => decide (m.crew_id = crew_id))).filterMap
    (fun m => m.skill_level)
  if skills.isEmpty then 5
  else
    let avg : Rat := ((skills.sum : Int) : Rat) / (skills.length : Rat)
    if avg = 0 then 5 else max 1 (min 10 (pyRound avg))

/-- The `_skill_difficulty_factors` lookup table literal from `_load_scoring_factors`
(rows: crew skill level 1 to 10; columns: difficulty codes C, R, S, SS). -/
def _skill_difficulty_factors (skill : Int) (difficulty : String) : Option Rat :=
  let row : Option (Rat × Rat × Rat × Rat) :=
    if skill = 1 then some (5000, 3500, 2000, 500)
    else if skill = 2 then some (4500, 3333, 2167, 1000)
    else if skill = 3 then some (4000, 3167, 2333, 1500)
    else if skill = 4 then some (3500, 3000, 2500, 2000)
    else if skill = 5 then some (3000, 2833, 2667, 2500)
    else if skill = 6 then some (2500, 2667, 2833, 3000)
    else if skill = 7 then some (2000, 2500, 3000, 3500)
    else if skill = 8 then some (1500, 2333, 3167, 4000)
    else if skill = 9 then some (1000, 2167, 3333, 4500)
    else if skill = 10 then some (500, 2000, 3500, 5000)
    else none
  match row with
  | none => none
  | some (c, r, s, ss) =>
    if difficulty = "C" then some c
    else if difficulty = "R" then some r
    else if difficulty = "S" then some s
    else if difficulty = "SS" then some ss
    else none

/-- Embedding of `set_itinerary_difficulty_factor`: table lookup with the default
fallback of 2000 when either key misses. -/
def set_itinerary_difficulty_factor (itinerary_difficulty : String)
    (crew_skill_level : Int) : Rat :=
  (_skill_difficulty_factors crew_skill_level itinerary_difficulty).getD 2000

/-- The `setdefault` calls in `_load_scoring_factors`. -/
def factorDefaults (code : String) : Option Rat :=
  if code = "programFactor" then some (3 / 2)
  else if code = "difficultDelta" then some 1
  else if code = "maxDifficult" then some 1000
  else if code = "maxSkill" then some 4000
  else if code = "skillDelta" then some 1
  else if code = "mileageFactor" then some 100
  else if code = "minDifficult" then some 500
  else none

/-- The `_scoring_factors` dict built by `_load_scoring_factors`: for each
`factor_code` the last active row wins (repeated dict assignment), and
`setdefault` fills a default only for codes with no active row at all. -/
def scoringFactorsLookup (db : DB) (code : String) : Option Rat :=
  match (db.scoring_factors.filter
      (fun f => f.is_active && decide (f.factor_code = code))).getLast? with
  | some f => some f.multiplier
  | none => factorDefaults code

/-- Embedding of `get_score_factor`: `self._scoring_factors.get(factor_code, 1.0)`. -/
def get_score_factor (db : DB) (factor_code : String) : Rat :=
  (scoringFactorsLookup db factor_code).getD 1

/-- One row of the join fetched by `get_program_scores`
(`SELECT p.id, ps.score, cm.age ...`; the member id is kept because the SQL
orders by it). -/
structure ScoreRow where
  program_id : Nat
  crew_member_id : Nat
  score : Rat
  age : Option Int
deriving DecidableEq

/-- The `ORDER BY p.id, ps.crew_member_id` ordering on fetched score rows. -/
def scoreRowLE (a b : ScoreRow) : Prop :=
  a.program_id < b.program_id ∨
    (a.program_id = b.program_id ∧ a.crew_member_id ≤ b.crew_member_id)

instance : DecidableRel scoreRowLE := fun a b => by unfold scoreRowLE; infer_instance

/-- The query in `get_program_scores`:
`SELECT p.id, ps.score, cm.age FROM programs p JOIN program_scores ps ON p.id = ps.program_id
JOIN crew_members cm ON ps.crew_member_id = cm.id WHERE ps.crew_id = ?
ORDER BY p.id, ps.crew_member_id` — an inner join then a (stable) sort. -/
def fetch_score_rows (db : DB) (crew_id : Nat) : List ScoreRow :=
  let joined := db.program_scores.flatMap (fun ps =>
    if ps.crew_id = crew_id then
      (db.programs.filter (fun p => decide (p.id = ps.program_id))).flatMap (fun p =>
        (db.crew_members.filter (fun cm => decide (cm.id = ps.crew_member_id))).map (fun cm =>
          ScoreRow.mk p.id ps.crew_member_id ps.score cm.age))
    else [])
  joined.insertionSort scoreRowLE

/-- The re-weighting step applied to each row by `get_program_scores`:
`if adult_weight_enabled and member_age > 20: score_value = score_value * (adult_weight_percent / 100.0)`.
With weighting enabled, comparing a NULL age against 20 raises `TypeError`, as does
dividing a NULL percent. -/
def weight_score (enabled : Bool) (percent : Option Rat) (age : Option Int)
    (score : Rat) : Except String Rat :=
  if enabled then
    match age with
    | none => .error "TypeError"
    | some a =>
      if a > 20 then
        match percent with
        | none => .error "TypeError"
        | some pct => .ok (score * (pct / 100))
      else .ok score
  else .ok score

/-- The grouping loop of `get_program_scores` over the fetched rows, carrying
`current_program`, `current_scores` and the result dict (an association list in
insertion order); includes the flush of the last program after the loop. -/
def score_rows_loop (enabled : Bool) (percent : Option Rat) (method : String) :
    List ScoreRow → Option Nat → List Rat → List (Nat × Rat) →
    Except String (List (Nat × Rat))
  | [], current_program, current_scores, acc =>
    match current_program with
    | some pid =>
      if current_scores.isEmpty then .ok acc
      else
        match _calculate_aggregate current_scores method with
        | .error e => .error e
        | .ok v => .ok (acc ++ [(pid, v)])
    | none => .ok acc
  | row :: rest, current_program, current_scores, acc =>
    match weight_score enabled percent row.age row.score with
    | .error e => .error e
    | .ok v =>
      if current_program ≠ some row.program_id then
        match current_program with
        | some pid =>
          if current_scores.isEmpty then
            score_rows_loop enabled percent method rest (some row.program_id) [v] acc
          else
            match _calculate_aggregate current_scores method with
            | .error e => .error e
            | .ok a =>
              score_rows_loop enabled percent method rest (some row.program_id) [v]
                (acc ++ [(pid, a)])
        | none => score_rows_loop enabled percent method rest (some row.program_id) [v] acc
      else
        score_rows_loop enabled percent method rest current_program (current_scores ++ [v]) acc

/-- The `adult_weight_enabled` value read at the top of `get_program_scores`
(`prefs["adult_program_weight_enabled"] if prefs else False`, under truthiness). -/
def adult_weight_enabled_of (db : DB) (crew_id : Nat) : Bool :=
  match fetchPrefs db crew_id with
  | none => false
  | some row => tb row.adult_program_weight_enabled

/-- The `adult_weight_percent` value read at the top of `get_program_scores`
(`prefs["adult_program_weight_percent"] if prefs else 100`; the raw column may be
NULL). -/
def adult_weight_percent_of (db : DB) (crew_id : Nat) : Option Rat :=
  match fetchPrefs db crew_id with
  | none => some 100
  | some row => row.adult_program_weight_percent

/-- Embedding of `get_program_scores`: preference fetch, per-row adult
re-weighting, grouping by consecutive program id, aggregation per group. -/
def get_program_scores (db : DB) (crew_id : Nat) (method : String) :
    Except String (List (Nat × Rat)) :=
  score_rows_loop (adult_weight_enabled_of db crew_id) (adult_weight_percent_of db crew_id)
    method (fetch_score_rows db crew_id) none [] []

/-- Python dict key lookup on the association list built by `get_program_scores`
(its keys are pairwise distinct, so first match suffices). -/
def dictLookup (d : List (Nat × Rat)) (k : Nat) : Option Rat :=
  match d.find? (fun e => decide (e.1 = k)) with
  | some e => some e.2
  | none => none

/-- Embedding of `_calculate_program_score`: sum the crew's aggregated score for
every program available on the itinerary for this trek type (missing dict keys
contribute nothing), then multiply by the `programFactor` scoring factor. -/
def _calculate_program_score (db : DB) (trek_type : String) (itinerary_id : Nat)
    (program_scores : List (Nat × Rat)) : Rat :=
  let available_programs := db.itinerary_programs.filter (fun ip =>
    decide (ip.itinerary_id = itinerary_id) && decide (ip.is_available = some 1) &&
      decide (ip.trek_type = trek_type))
  let total_score :=
    (available_programs.map (fun ip => (dictLookup program_scores ip.program_id).getD 0)).sum
  total_score * get_score_factor db "programFactor"

/-- Embedding of `_calculate_difficulty_score`: the `if/elif` acceptance chain over
the itinerary's difficulty code (each preference flag defaults to accepted only when
the crew has no preference row), then the skill-table factor times `difficultDelta`. -/
def _calculate_difficulty_score (db : DB) (crew_id : Nat) (itinerary : ItinRow)
    (crew_prefs : Option PrefsRow) : Rat :=
  let difficulty := itinerary.difficulty
  let difficulty_accepted : Bool :=
    if difficulty = "C" then pgetB crew_prefs (fun row => row.difficulty_challenging) true
    else if difficulty = "R" then pgetB crew_prefs (fun row => row.difficulty_rugged) true
    else if difficulty = "S" then pgetB crew_prefs (fun row => row.difficulty_strenuous) true
    else if difficulty = "SS" then
      pgetB crew_prefs (fun row => row.difficulty_super_strenuous) true
    else false
  if !difficulty_accepted then 0
  else
    set_itinerary_difficulty_factor difficulty (get_crew_skill_level db crew_id) *
      get_score_factor db "difficultDelta"

/-- The `rank_scores` table of `_calculate_area_score`. -/
def rank_scores (rank : Int) : Option Rat :=
  if rank = 1 then some 1000
  else if rank = 2 then some 600
  else if rank = 3 then some 200
  else if rank = 4 then some 150
  else none

/-- `crew_prefs.get(key, 0)` for an integer preference column. -/
def pgetI (p : Option PrefsRow) (f : PrefsRow → Option Int) : Option Int :=
  match p with
  | none => some 0
  | some row => f row

/-- Embedding of `_calculate_area_score`: gated on `area_important`; each covered
region with a truthy rank adds the `rank_scores` table value (0 on a miss). -/
def _calculate_area_score (itinerary : ItinRow) (crew_prefs : Option PrefsRow) : Rat :=
  if !pgetB crew_prefs (fun row => row.area_important) false then 0
  else
    let entries : List (Option Bool × Option Int) :=
      [(itinerary.covers_south, pgetI crew_prefs (fun row => row.area_rank_south)),
       (itinerary.covers_central, pgetI crew_prefs (fun row => row.area_rank_central)),
       (itinerary.covers_north, pgetI crew_prefs (fun row => row.area_rank_north)),
       (itinerary.covers_valle_vidal, pgetI crew_prefs (fun row => row.area_rank_valle_vidal))]
    (entries.map (fun e =>
      if tb e.1 && ti e.2 then (rank_scores (e.2.getD 0)).getD 0 else 0)).sum

/-- The threshold loop pattern of `_calculate_altitude_score`: first entry of the
descending table whose threshold the value reaches, otherwise the default. -/
def floorLookup : List (Int × Rat) → Rat → Int → Rat
  | [], dflt, _ => dflt
  | (t, p) :: rest, dflt, v => if v ≥ t then p else floorLookup rest dflt v

/-- `altitude_scores` as iterated (`sorted(..., reverse=True)`, keys descending). -/
def altitude_chart : List (Int × Rat) :=
  [(12441, 130), (11800, 120), (11000, 110), (10800, 100), (10600, 90), (10500, 80),
   (10000, 70), (9800, 60), (9200, 50), (9100, 40), (9000, 30), (8999, 20)]

/-- `elevation_gain_scores` as iterated (keys descending). -/
def elevation_gain_chart : List (Int × Rat) :=
  [(6500, 50), (6000, 60), (5500, 70), (5000, 80), (4500, 90), (4000, 100), (3500, 90),
   (3000, 80), (2500, 70), (2000, 60), (1500, 50), (1499, 40)]

/-- `daily_change_scores` as iterated (keys descending). -/
def daily_change_chart : List (Int × Rat) :=
  [(1200, 100), (900, 200), (600, 300), (300, 100)]

/-- Embedding of `_calculate_altitude_score`: three additive parts, each gated by
its own importance flag and a positive value. -/
def _calculate_altitude_score (itinerary : ItinRow) (crew_prefs : Option PrefsRow) : Rat :=
  let part1 :=
    let max_altitude := itinerary.max_altitude.getD 0
    if pgetB crew_prefs (fun row => row.max_altitude_important) false &&
        decide (max_altitude > 0) then
      floorLookup altitude_chart 20 max_altitude
    else 0
  let part2 :=
    let total_gain := itinerary.total_elevation_gain.getD 0
    if pgetB crew_prefs (fun row => row.total_elevation_gain_important) false &&
        decide (total_gain > 0) then
      floorLookup elevation_gain_chart 40 total_gain
    else 0
  let part3 :=
    if pgetB crew_prefs (fun row => row.altitude_change_important) false then
      let daily_change := itinerary.avg_daily_elevation_change.getD 0
      if daily_change > 0 then floorLookup daily_change_chart 100 daily_change else 0
    else 0
  part1 + part2 + part3

/-- Embedding of `_calculate_distance_score`: raw distance (default 50 when NULL)
times the `mileageFactor` scoring factor. -/
def _calculate_distance_score (db : DB) (itinerary : ItinRow) : Rat :=
  let distance := itinerary.distance.getD 50
  distance * get_score_factor db "mileageFactor"

/-- Embedding of `_calculate_hike_score`: 500 points per matching hike-direction
preference (both flags default to set only when the crew has no preference row). -/
def _calculate_hike_score (itinerary : ItinRow) (crew_prefs : Option PrefsRow) : Rat :=
  (if pgetB crew_prefs (fun row => row.hike_out_preference) true &&
      decide (itinerary.starts_at = "Hike Out") then (500 : Rat) else 0) +
  (if pgetB crew_prefs (fun row => row.hike_in_preference) true &&
      decide (itinerary.ends_at = "Hike In") then (500 : Rat) else 0)

/-- The `dry_camp_scores` dict of `_calculate_camp_score`. -/
def dry_camp_scores (k : Int) : Option Rat :=
  if k = 0 then some 300
  else if k = 1 then some 250
  else if k = 2 then some 225
  else if k = 3 then some 200
  else if k = 4 then some 150
  else if k = 5 then some 100
  else if k = 6 then some 50
  else if k = 7 then some 20
  else none

/-- Dry-camp part of `_calculate_camp_score`: with a `max_dry_camps` threshold set,
a count within the threshold earns `dry_camp_scores.get(min(count, 7), 20)` and a
count over it loses `(count - max) * 500`; with no threshold, the table value. -/
def dry_camp_part (dry_camp_count : Int) (max_dry_camps : Option Int) : Rat :=
  match max_dry_camps with
  | some m =>
    if dry_camp_count ≤ m then (dry_camp_scores (min dry_camp_count 7)).getD 20
    else -(((dry_camp_count - m : Int) : Rat) * 500)
  | none => (dry_camp_scores (min dry_camp_count 7)).getD 20

/-- The `trail_camp_scores` dict of `_calculate_camp_score`. -/
def trail_camp_scores (k : Int) : Option Rat :=
  if k = 0 then some 250
  else if k = 1 then some 200
  else if k = 2 then some 175
  else if k = 3 then some 150
  else if k = 4 then some 125
  else if k = 5 then some 100
  else if k = 6 then some 75
  else if k = 7 then some 50
  else if k = 8 then some 25
  else none

/-- Trail-camp part: `trail_camp_scores.get(min(count, 8), 25)`, always applied. -/
def trail_camp_part (trail_camp_count : Int) : Rat :=
  (trail_camp_scores (min trail_camp_count 8)).getD 25

/-- The `total_camp_scores` dict of `_calculate_camp_score`. -/
def total_camp_scores (k : Int) : Option Rat :=
  if k = 3 then some 60
  else if k = 4 then some 70
  else if k = 5 then some 80
  else if k = 6 then some 90
  else if k = 7 then some 100
  else if k = 8 then some 75
  else if k = 9 then some 60
  else if k = 10 then some 50
  else none

/-- Total-camps part: a bonus only when the dry+trail sum is a key of the table. -/
def total_camp_part (total_camps : Int) : Rat :=
  (total_camp_scores total_camps).getD 0

/-- The shower query of `_calculate_camp_score`: `has_showers` of every camp joined
to the itinerary through `itinerary_camps`. -/
def fetch_has_showers (db : DB) (itinerary_id : Nat) : List (Option Bool) :=
  (db.itinerary_camps.filter (fun ic => decide (ic.itinerary_id = itinerary_id))).flatMap
    (fun ic => (db.camps.filter (fun c => decide (c.id = ic.camp_id))).map
      (fun c => c.has_showers))

/-- Shower part of `_calculate_camp_score`: evaluated only when required. -/
def showers_part (db : DB) (itinerary_id : Nat) (crew_prefs : Option PrefsRow) : Rat :=
  if pgetB crew_prefs (fun row => row.showers_required) false then
    if (fetch_has_showers db itinerary_id).any tb then 1000 else -1500
  else 0

/-- Layover part of `_calculate_camp_score`: evaluated only when required
(`SELECT ic.is_layover FROM itinerary_camps ic WHERE ic.itinerary_id = ? AND ic.is_layover = 1`). -/
def layovers_part (db : DB) (itinerary_id : Nat) (crew_prefs : Option PrefsRow) : Rat :=
  if pgetB crew_prefs (fun row => row.layovers_required) false then
    let layovers := db.itinerary_camps.filter (fun ic =>
      decide (ic.itinerary_id = itinerary_id) && decide (ic.is_layover = some 1))
    if layovers.length > 0 then 800 else -1200
  else 0

/-- Low-starting-food part of `_calculate_camp_score`, with the formula exactly as
written in the source: `20 + (days_food_from_base - 1) * 10` when the preference is
set and the day count is positive. -/
def low_start_food_part (days_food_from_base : Int) (crew_prefs : Option PrefsRow) : Rat :=
  if pgetB crew_prefs (fun row => row.prefer_low_starting_food) false then
    if days_food_from_base > 0 then 20 + ((days_food_from_base : Rat) - 1) * 10 else 0
  else 0

/-- Shorter-resupply part of `_calculate_camp_score`:
`max(100 + (max_days_food - 1) * (-10), 0)` when set and the day count is positive. -/
def shorter_resupply_part (max_days_food : Int) (crew_prefs : Option PrefsRow) : Rat :=
  if pgetB crew_prefs (fun row => row.prefer_shorter_resupply) false then
    if max_days_food > 0 then max (100 + ((max_days_food : Rat) - 1) * (-10)) 0 else 0
  else 0

/-- Embedding of `_calculate_camp_score` as the sum of its additive parts, in
source order (`dry_camps` and `trail_camps` NULL columns count as 0). -/
def _calculate_camp_score (db : DB) (itinerary : ItinRow)
    (crew_prefs : Option PrefsRow) : Rat :=
  let dry_camp_count := itinerary.dry_camps.getD 0
  let trail_camp_count := itinerary.trail_camps.getD 0
  dry_camp_part dry_camp_count
      (match crew_prefs with
       | none => none
       | some row => row.max_dry_camps) +
    trail_camp_part trail_camp_count +
    total_camp_part (dry_camp_count + trail_camp_count) +
    showers_part db itinerary.id crew_prefs +
    layovers_part db itinerary.id crew_prefs +
    low_start_food_part (itinerary.days_food_from_base.getD 0) crew_prefs +
    shorter_resupply_part (itinerary.max_days_food.getD 0) crew_prefs

/-- The `peak_to_landmark` dict of `_calculate_peak_score`. -/
def peak_to_landmark (pref_key : String) : String :=
  if pref_key = "climb_baldy" then "Landmarks: Baldy Mountain"
  else if pref_key = "climb_phillips" then "Landmarks: Mount Phillips"
  else if pref_key = "climb_tooth" then "Landmarks: Tooth of Time"
  else if pref_key = "climb_inspiration_point" then "Landmarks: Inspiration Point"
  else if pref_key = "climb_trail_peak" then "Landmarks: Trail Peak"
  else "Landmarks: Mountaineering"

/-- The `peak_multipliers` dict of `_calculate_peak_score` (with the same
`.get(pref_key, 1.0)` fallback used in the loop). -/
def peak_multipliers (pref_key : String) : Rat :=
  if pref_key = "climb_baldy" then 2
  else if pref_key = "climb_phillips" then 3 / 2
  else if pref_key = "climb_tooth" then 3 / 2
  else if pref_key = "climb_inspiration_point" then 1
  else if pref_key = "climb_trail_peak" then 3 / 2
  else if pref_key = "climb_others" then 6 / 5
  else 1

/-- The keys of the `peak_preferences` dict, in insertion (iteration) order. -/
def peak_keys : List String :=
  ["climb_baldy", "climb_phillips", "climb_tooth", "climb_inspiration_point",
   "climb_trail_peak", "climb_others"]

/-- The `peak_preferences` dict of `_calculate_peak_score`: the itinerary's peak
column for a preference key, under `or False` truthiness. -/
def itin_has_peak (itinerary : ItinRow) (pref_key : String) : Bool :=
  if pref_key = "climb_baldy" then tb itinerary.baldy_mountain
  else if pref_key = "climb_phillips" then tb itinerary.mount_phillips
  else if pref_key = "climb_tooth" then tb itinerary.tooth_of_time
  else if pref_key = "climb_inspiration_point" then tb itinerary.inspiration_point
  else if pref_key = "climb_trail_peak" then tb itinerary.trail_peak
  else tb itinerary.mountaineering

/-- `crew_prefs.get(pref_key, False)` for the six climb preference columns. -/
def crew_wants_peak (crew_prefs : Option PrefsRow) (pref_key : String) : Bool :=
  if pref_key = "climb_baldy" then pgetB crew_prefs (fun row => row.climb_baldy) false
  else if pref_key = "climb_phillips" then pgetB crew_prefs (fun row => row.climb_phillips) false
  else if pref_key = "climb_tooth" then pgetB crew_prefs (fun row => row.climb_tooth) false
  else if pref_key = "climb_inspiration_point" then
    pgetB crew_prefs (fun row => row.climb_inspiration_point) false
  else if pref_key = "climb_trail_peak" then
    pgetB crew_prefs (fun row => row.climb_trail_peak) false
  else pgetB crew_prefs (fun row => row.climb_others) false

/-- The per-peak entry of the `program_scores` dict built inside
`_calculate_peak_score`: the program id is looked up by landmark name
(`SELECT id FROM programs WHERE name = ?`, `fetchone`), then the crew's raw
`program_scores` rows for it (`SELECT score FROM program_scores WHERE
program_id = ? AND crew_id = ?` — no member join and no adult re-weighting) are
aggregated when non-empty (so `_calculate_aggregate` cannot fail there, see
`_calculate_aggregate_eq_ok`). -/
def peak_program_score (db : DB) (crew_id : Nat) (method : String)
    (pref_key : String) : Option Rat :=
  match (db.programs.filter (fun p => decide (p.name = peak_to_landmark pref_key))).head? with
  | none => none
  | some program_result =>
    let scores := (db.program_scores.filter (fun ps =>
      decide (ps.program_id = program_result.id) && decide (ps.crew_id = crew_id))).map
      (fun ps => ps.score)
    if scores.isEmpty then none else some (aggValue scores method)

/-- One key's contribution to the final accumulation loop of
`_calculate_peak_score`. -/
def peak_contribution (db : DB) (crew_id : Nat) (method : String) (itinerary : ItinRow)
    (crew_prefs : Option PrefsRow) (pref_key : String) : Rat :=
  if itin_has_peak itinerary pref_key then
    match peak_program_score db crew_id method pref_key with
    | none => 0
    | some base_score =>
      let program_factor := get_score_factor db "programFactor"
      if crew_wants_peak crew_prefs pref_key then
        base_score * peak_multipliers pref_key * program_factor
      else base_score * program_factor
  else 0

/-- Embedding of `_calculate_peak_score`: the six per-key contributions summed in
dict iteration order. -/
def _calculate_peak_score (db : DB) (crew_id : Nat) (method : String)
    (itinerary : ItinRow) (crew_prefs : Option PrefsRow) : Rat :=
  (peak_keys.map (peak_contribution db crew_id method itinerary crew_prefs)).sum

/-- The `score_components` dict of `calculate_itinerary_scores`. -/
structure Components where
  program_score : Rat
  difficulty_score : Rat
  area_score : Rat
  altitude_score : Rat
  distance_score : Rat
  hike_score : Rat
  camp_score : Rat
  peak_score : Rat
deriving DecidableEq

/-- One element of the `results` list of `calculate_itinerary_scores`
(`ranking` is 0 until `add_rankings` assigns it). -/
structure ScoredItinerary where
  itinerary : ItinRow
  total_score : Rat
  components : Components
  ranking : Nat
deriving DecidableEq

/-- The itinerary ordering of
`SELECT * FROM itineraries WHERE trek_type = ? ORDER BY itinerary_code`. -/
def itinLE (a b : ItinRow) : Prop := a.itinerary_code ≤ b.itinerary_code

instance : DecidableRel itinLE := fun a b => String.decidableLE a.itinerary_code b.itinerary_code

/-- The itinerary fetch of `calculate_itinerary_scores`. -/
def fetch_itineraries (db : DB) (trek_type : String) : List ItinRow :=
  (db.itineraries.filter (fun i => decide (i.trek_type = trek_type))).insertionSort itinLE

/-- The per-itinerary body of the main loop of `calculate_itinerary_scores`:
all eight components and their sum. -/
def score_itinerary (db : DB) (crew_id : Nat) (trek_type : String) (method : String)
    (program_scores : List (Nat × Rat)) (crew_prefs : Option PrefsRow)
    (itin : ItinRow) : ScoredItinerary :=
  let components : Components :=
    { program_score := _calculate_program_score db trek_type itin.id program_scores
      difficulty_score := _calculate_difficulty_score db crew_id itin crew_prefs
      area_score := _calculate_area_score itin crew_prefs
      altitude_score := _calculate_altitude_score itin crew_prefs
      distance_score := _calculate_distance_score db itin
      hike_score := _calculate_hike_score itin crew_prefs
      camp_score := _calculate_camp_score db itin crew_prefs
      peak_score := _calculate_peak_score db crew_id method itin crew_prefs }
  { itinerary := itin
    total_score := components.program_score + components.difficulty_score +
      components.area_score + components.altitude_score + components.distance_score +
      components.hike_score + components.camp_score + components.peak_score
    components := components
    ranking := 0 }

/-- The descending order used by `results.sort(key=lambda x: x["total_score"], reverse=True)`.
A Python stable sort with `reverse=True` keeps ties in input order. -/
def scoredGE (a b : ScoredItinerary) : Prop := b.total_score ≤ a.total_score

instance : DecidableRel scoredGE := fun a b => Rat.instDecidableLe b.total_score a.total_score

/-- The rank assignment `for i, result in enumerate(results, 1): result["ranking"] = i`. -/
def add_rankings : Nat → List ScoredItinerary → List ScoredItinerary
  | _, [] => []
  | i, r :: rs => { r with ranking := i } :: add_rankings (i + 1) rs

/-- Embedding of `calculate_itinerary_scores`: program scores once, preferences
once, one `ScoredItinerary` per itinerary of the trek type, stable descending sort
on the total, then rank assignment.  Any exception from `get_program_scores`
propagates. -/
def calculate_itinerary_scores (db : DB) (crew_id : Nat) (trek_type : String)
    (method : String) : Except String (List ScoredItinerary) :=
  match get_program_scores db crew_id method with
  | .error e => .error e
  | .ok program_scores =>
    let crew_prefs := fetchPrefs db crew_id
    let itineraries := fetch_itineraries db trek_type
    if itineraries.isEmpty then .ok []
    else
      let results := itineraries.map
        (score_itinerary db crew_id trek_type method program_scores crew_prefs)
      let sorted := results.insertionSort scoredGE
      .ok (add_rankings 1 sorted)

/-- A preference row for the given crew with NULL in every preference column
(building block for the concrete databases below). -/
def blankPrefs (crew : Nat) : PrefsRow :=
  { crew_id := crew
    adult_program_weight_enabled := none
    adult_program_weight_percent := none
    difficulty_challenging := none
    difficulty_rugged := none
    difficulty_strenuous := none
    difficulty_super_strenuous := none
    area_important := none
    area_rank_south := none
    area_rank_central := none
    area_rank_north := none
    area_rank_valle_vidal := none
    max_altitude_important := none
    total_elevation_gain_important := none
    altitude_change_important := none
    hike_out_preference := none
    hike_in_preference := none
    max_dry_camps := none
    showers_required := none
    layovers_required := none
    prefer_low_starting_food := none
    prefer_shorter_resupply := none
    climb_baldy := none
    climb_phillips := none
    climb_tooth := none
    climb_inspiration_point := none
    climb_trail_peak := none
    climb_others := none }

/-- An itinerary row with the given id / code / trek type / difficulty, NULL in
every nullable column, and plain start and end modes. -/
def mkItin (id : Nat) (code trek diff : String) : ItinRow :=
  { id := id
    itinerary_code := code
    trek_type := trek
    difficulty := diff
    distance := none
    max_altitude := none
    total_elevation_gain := none
    avg_daily_elevation_change := none
    starts_at := "Bus"
    ends_at := "Bus"
    covers_south := none
    covers_central := none
    covers_north := none
    covers_valle_vidal := none
    dry_camps := none
    trail_camps := none
    days_food_from_base := none
    max_days_food := none
    baldy_mountain := none
    mount_phillips := none
    tooth_of_time := none
    inspiration_point := none
    trail_peak := none
    mountaineering := none }

/-- A database whose crew 1 has adult weighting enabled at 50 percent and a single
member with no recorded age who rated the Baldy landmark program 10. -/
def ageNoneDB : DB :=
  { crew_preferences := [{ blankPrefs 1 with
      adult_program_weight_enabled := some true
      adult_program_weight_percent := some 50 }]
    crew_members := [{ id := 1, crew_id := 1, age := none, skill_level := none }]
    programs := [{ id := 1, name := "Landmarks: Baldy Mountain" }]
    program_scores := [{ program_id := 1, crew_id := 1, crew_member_id := 1, score := 10 }]
    itineraries := []
    itinerary_programs := []
    itinerary_camps := []
    camps := []
    scoring_factors := [] }

/-- A database whose crew 1 has adult weighting enabled at 50 percent and a single
adult member (age 30) who rated the Baldy landmark program 10. -/
def adultDB : DB :=
  { crew_preferences := [{ blankPrefs 1 with
      adult_program_weight_enabled := some true
      adult_program_weight_percent := some 50 }]
    crew_members := [{ id := 1, crew_id := 1, age := some 30, skill_level := none }]
    programs := [{ id := 1, name := "Landmarks: Baldy Mountain" }]
    program_scores := [{ program_id := 1, crew_id := 1, crew_member_id := 1, score := 10 }]
    itineraries := [{ mkItin 1 "12-1" "12-day" "C" with baldy_mountain := some true }]
    itinerary_programs := []
    itinerary_camps := []
    camps := []
    scoring_factors := [] }

/-- A database with two otherwise identical 12-day itineraries (codes 12-1, 12-2)
and a crew with no members, no ratings and no preference row; both itineraries
necessarily receive the same total score. -/
def rankDB : DB :=
  { crew_preferences := []
    crew_members := []
    programs := []
    program_scores := []
    itineraries := [mkItin 2 "12-2" "12-day" "C", mkItin 1 "12-1" "12-day" "C"]
    itinerary_programs := []
    itinerary_camps := []
    camps := []
    scoring_factors := [] }

/-- The ranked output of `calculate_itinerary_scores` on `rankDB`. -/
def rankOut : List ScoredItinerary :=
  (calculate_itinerary_scores rankDB 1 "12-day" "Total").toOption.getD []

/-- A preference row that only sets the prefer-low-starting-food flag. -/
def lowFoodPrefs : PrefsRow :=
  { blankPrefs 1 with prefer_low_starting_food := some true }

/-- A preference row that only marks Baldy Mountain as a desired climb. -/
def wantsBaldyPrefs : PrefsRow :=
  { blankPrefs 1 with climb_baldy := some true }

/-! ### Helper lemmas -/

theorem mostCommonStep_isSome (scores : List Rat) (best : Option Rat) (v : Rat) :
    (mostCommonStep scores best v).isSome := by
  rcases best with _ | b
  · rfl
  · show (if scores.count b < scores.count v then some v else some b).isSome = true
    split <;> rfl

theorem foldl_mostCommonStep_isSome (scores : List Rat) :
    ∀ (l : List Rat) (acc : Option Rat), acc.isSome →
      (l.foldl (mostCommonStep scores) acc).isSome := by
  intro l
  induction l with
  | nil => intro acc hacc; simpa using hacc
  | cons v t ih =>
    intro acc _
    rw [List.foldl_cons]
    exact ih (mostCommonStep scores acc v) (mostCommonStep_isSome scores acc v)

theorem mostCommon_isSome (scores : List Rat) (h : scores ≠ []) :
    (mostCommon scores).isSome := by
  unfold mostCommon
  rcases scores with _ | ⟨a, l⟩
  · exact absurd rfl h
  · rw [List.foldl_cons]
    exact foldl_mostCommonStep_isSome _ l _ (mostCommonStep_isSome _ none a)

/-- On a non-empty list `_calculate_aggregate` never fails and agrees with its
total version `aggValue`. -/
theorem _calculate_aggregate_eq_ok (scores : List Rat) (method : String)
    (h : scores ≠ []) :
    _calculate_aggregate scores method = .ok (aggValue scores method) := by
  have hlen : scores.length ≠ 0 := fun hc => h (List.length_eq_zero.mp hc)
  have hsort : (scores.insertionSort (· ≤ ·)).length ≠ 0 := by
    rwa [List.length_insertionSort]
  obtain ⟨v, hv⟩ := Option.isSome_iff_exists.mp (mostCommon_isSome scores h)
  unfold _calculate_aggregate aggValue
  rw [hv]
  split_ifs <;> simp_all
  split <;> simp_all

/-! ### C2 -/

/-- C2, counterexample: `_calculate_aggregate` applied to the empty list does not
return 0 for every method — `Average` raises `ZeroDivisionError` while `Median`
and `Mode` raise `IndexError`. -/
theorem aggregate_empty_raises :
    _calculate_aggregate [] "Average" = .error "ZeroDivisionError" ∧
    _calculate_aggregate [] "Median" = .error "IndexError" ∧
    _calculate_aggregate [] "Mode" = .error "IndexError" :=
  ⟨rfl, rfl, rfl⟩

/-- C2 (amended): on the empty list, `_calculate_aggregate` returns 0 for `Total`
and for any unrecognized method, raises `ZeroDivisionError` for `Average`, and
raises `IndexError` for `Median` and for `Mode`. -/
theorem aggregate_empty_spec (method : String) :
    _calculate_aggregate [] method =
      if method = "Average" then .error "ZeroDivisionError"
      else if method = "Median" then .error "IndexError"
      else if method = "Mode" then .error "IndexError"
      else .ok 0 := by
  unfold _calculate_aggregate
  split_ifs <;> simp_all [mostCommon]

/-! ### C6 -/

/-- C6: over crew skill levels 1 to 10, the skill/difficulty lookup is
monotonically non-increasing in skill for difficulty class C and monotonically
non-decreasing in skill for difficulty class SS. -/
theorem difficulty_factor_monotone :
    ∀ s t : Fin 10, s ≤ t →
      set_itinerary_difficulty_factor "C" (((t : Nat) : Int) + 1) ≤
          set_itinerary_difficulty_factor "C" (((s : Nat) : Int) + 1) ∧
        set_itinerary_difficulty_factor "SS" (((s : Nat) : Int) + 1) ≤
          set_itinerary_difficulty_factor "SS" (((t : Nat) : Int) + 1) := by
  with_unfolding_all decide

/-- Witness for C6 at skill levels 1 and 10. -/
theorem difficulty_factor_monotone_witness :
    set_itinerary_difficulty_factor "C" ((((9 : Fin 10) : Nat) : Int) + 1) ≤
        set_itinerary_difficulty_factor "C" ((((0 : Fin 10) : Nat) : Int) + 1) ∧
      set_itinerary_difficulty_factor "SS" ((((0 : Fin 10) : Nat) : Int) + 1) ≤
        set_itinerary_difficulty_factor "SS" ((((9 : Fin 10) : Nat) : Int) + 1) :=
  difficulty_factor_monotone 0 9 (by decide)

/-! ### C7 -/

/-- C7: when the crew sets a max-dry-camps threshold, a dry-camp count within the
threshold contributes the table value (0 gives 300, 1 gives 250, 2 gives 225, 3
gives 200, 4 gives 150, 5 gives 100, 6 gives 50, 7 or more gives 20); a count
over the threshold instead contributes minus 500 per camp over (the table bonus
is not also added); in particular count 3 against threshold 2 contributes -500,
not the table value 200. -/
theorem dry_camp_part_spec (c : Nat) (m : Int) :
    ((c : Int) ≤ m →
      dry_camp_part (c : Int) (some m) =
        (if c = 0 then 300 else if c = 1 then 250 else if c = 2 then 225
         else if c = 3 then 200 else if c = 4 then 150 else if c = 5 then 100
         else if c = 6 then 50 else (20 : Rat))) ∧
    (m < (c : Int) →
      dry_camp_part (c : Int) (some m) = -(((c : Int) - m : Int) : Rat) * 500) ∧
    dry_camp_part 3 (some 2) = -500 := by
  have hmatch : ∀ (k m : Int), dry_camp_part k (some m) =
      if k ≤ m then (dry_camp_scores (min k 7)).getD 20
      else -(((k - m : Int) : Rat) * 500) := fun _ _ => rfl
  refine ⟨?_, ?_, by rw [hmatch]; norm_num [dry_camp_scores]⟩
  · intro hle
    rw [hmatch, if_pos hle]
    rcases c with _ | _ | _ | _ | _ | _ | _ | c
    · norm_num [dry_camp_scores]
    · norm_num [dry_camp_scores]
    · norm_num [dry_camp_scores]
    · norm_num [dry_camp_scores]
    · norm_num [dry_camp_scores]
    · norm_num [dry_camp_scores]
    · norm_num [dry_camp_scores]
    · have h7 : min (((c + 7 : Nat) : Int)) 7 = 7 := by omega
      rw [h7]
      norm_num [dry_camp_scores]
      split_ifs <;> first | rfl | omega
  · intro hlt
    rw [hmatch, if_neg (not_le.mpr hlt)]
    ring

/-- Witness for C7: count 1 within threshold 5 earns the table value 250, and
count 3 over threshold 2 contributes -500. -/
theorem dry_camp_part_spec_witness :
    dry_camp_part ((1 : Nat) : Int) (some 5) =
        (if (1 : Nat) = 0 then 300 else if (1 : Nat) = 1 then 250
         else if (1 : Nat) = 2 then 225 else if (1 : Nat) = 3 then 200
         else if (1 : Nat) = 4 then 150 else if (1 : Nat) = 5 then 100
         else if (1 : Nat) = 6 then 50 else (20 : Rat)) ∧
      dry_camp_part 3 (some 2) = -500 :=
  ⟨(dry_camp_part_spec 1 5).1 (by decide), (dry_camp_part_spec 3 2).2.2⟩

/-! ### C9 -/

/-- C9: with the prefer-low-starting-food preference set and a positive
days-of-food-carried count d, the camp sub-score part is exactly
20 + (d - 1) * 10, and it strictly increases as d increases — the formula is
reproduced exactly as written in the source, not inverted. -/
theorem low_start_food_part_spec (crew_prefs : Option PrefsRow) (d e : Int)
    (hpref : pgetB crew_prefs (fun row => row.prefer_low_starting_food) false = true)
    (hd : 0 < d) :
    low_start_food_part d crew_prefs = 20 + ((d : Rat) - 1) * 10 ∧
      (d < e → low_start_food_part d crew_prefs < low_start_food_part e crew_prefs) := by
  have hval : ∀ x : Int, 0 < x →
      low_start_food_part x crew_prefs = 20 + ((x : Rat) - 1) * 10 := by
    intro x hx
    unfold low_start_food_part
    rw [hpref]
    rw [if_pos rfl, if_pos hx]
  refine ⟨hval d hd, fun hde => ?_⟩
  rw [hval d hd, hval e (lt_trans hd hde)]
  have hcast : (d : Rat) < (e : Rat) := by exact_mod_cast hde
  linarith

/-- Witness for C9 at days 1 and 2 with the preference flag set. -/
theorem low_start_food_part_spec_witness :
    low_start_food_part 1 (some lowFoodPrefs) = 20 + ((1 : Int) : Rat) * 10 - 10 ∧
      low_start_food_part 1 (some lowFoodPrefs) < low_start_food_part 2 (some lowFoodPrefs) := by
  have h := low_start_food_part_spec (some lowFoodPrefs) 1 2 (by decide) (by decide)
  exact ⟨by rw [h.1]; ring, h.2 (by decide)⟩

/-! ### C3 -/

/-- C3: on every non-empty list L, aggregation with `Total` returns the sum of L,
with `Average` the sum divided by the length, and with `Median` the middle element
of any sorted permutation of L when the length is odd, or the mean of its two
middle elements when the length is even. -/
theorem aggregate_nonempty_spec (L : List Rat) (h : L ≠ []) :
    _calculate_aggregate L "Total" = .ok L.sum ∧
    _calculate_aggregate L "Average" = .ok (L.sum / (L.length : Rat)) ∧
    ∀ s : List Rat, L.Perm s → s.Sorted (· ≤ ·) →
      (L.length % 2 = 1 →
        _calculate_aggregate L "Median" = .ok (s.getD (L.length / 2) 0)) ∧
      (L.length % 2 = 0 →
        _calculate_aggregate L "Median" =
          .ok ((s.getD (L.length / 2 - 1) 0 + s.getD (L.length / 2) 0) / 2)) := by
  have hlen : L.length ≠ 0 := fun hc => h (List.length_eq_zero.mp hc)
  refine ⟨rfl, ?_, ?_⟩
  · have havg : _calculate_aggregate L "Average" =
        if L.length = 0 then .error "ZeroDivisionError"
        else .ok (L.sum / (L.length : Rat)) := rfl
    rw [havg, if_neg hlen]
  · intro s hperm hsort
    have hs : s = L.insertionSort (· ≤ ·) :=
      List.eq_of_perm_of_sorted (hperm.symm.trans (List.perm_insertionSort _ L).symm)
        hsort (List.sorted_insertionSort _ L)
    have hmed : _calculate_aggregate L "Median" =
        if (L.insertionSort (· ≤ ·)).length = 0 then .error "IndexError"
        else if (L.insertionSort (· ≤ ·)).length % 2 = 0 then
          .ok (((L.insertionSort (· ≤ ·)).getD ((L.insertionSort (· ≤ ·)).length / 2 - 1) 0 +
            (L.insertionSort (· ≤ ·)).getD ((L.insertionSort (· ≤ ·)).length / 2) 0) / 2)
        else .ok ((L.insertionSort (· ≤ ·)).getD ((L.insertionSort (· ≤ ·)).length / 2) 0) := rfl
    rw [List.length_insertionSort] at hmed
    rw [hmed, if_neg hlen, hs]
    constructor
    · intro hodd
      rw [if_neg (by omega)]
    · intro heven
      rw [if_pos heven]

/-- Witness for C3 at the list [3, 1, 2] with its sorted permutation [1, 2, 3]. -/
theorem aggregate_nonempty_spec_witness :
    _calculate_aggregate [(3 : Rat), 1, 2] "Total" = .ok ([(3 : Rat), 1, 2]).sum ∧
    _calculate_aggregate [(3 : Rat), 1, 2] "Median" =
      .ok (([(1 : Rat), 2, 3]).getD (([(3 : Rat), 1, 2]).length / 2) 0) := by
  have h := aggregate_nonempty_spec [3, 1, 2] (by with_unfolding_all decide)
  refine ⟨h.1, ?_⟩
  exact (h.2.2 [1, 2, 3] (by with_unfolding_all decide)
    (by with_unfolding_all decide)).1 (by with_unfolding_all decide)

/-! ### Loop step lemmas for get_program_scores -/

/-- One loop step when the weighting raises: the exception propagates. -/
theorem score_rows_loop_cons_error (enabled : Bool) (percent : Option Rat)
    (method : String) (row : ScoreRow) (rest : List ScoreRow) (curP : Option Nat)
    (curS : List Rat) (acc : List (Nat × Rat)) (e : String)
    (hw : weight_score enabled percent row.age row.score = .error e) :
    score_rows_loop enabled percent method (row :: rest) curP curS acc = .error e := by
  conv_lhs => rw [score_rows_loop]
  rw [hw]

/-- One loop step when the weighting succeeds: the loop continues as in the
source, flushing the previous group when the program id changes. -/
theorem score_rows_loop_cons_ok (enabled : Bool) (percent : Option Rat)
    (method : String) (row : ScoreRow) (rest : List ScoreRow) (curP : Option Nat)
    (curS : List Rat) (acc : List (Nat × Rat)) (v : Rat)
    (hw : weight_score enabled percent row.age row.score = .ok v) :
    score_rows_loop enabled percent method (row :: rest) curP curS acc =
      if curP ≠ some row.program_id then
        match curP with
        | some pid =>
          if curS.isEmpty then
            score_rows_loop enabled percent method rest (some row.program_id) [v] acc
          else
            match _calculate_aggregate curS method with
            | .error e => .error e
            | .ok a =>
              score_rows_loop enabled percent method rest (some row.program_id) [v]
                (acc ++ [(pid, a)])
        | none => score_rows_loop enabled percent method rest (some row.program_id) [v] acc
      else score_rows_loop enabled percent method rest curP (curS ++ [v]) acc := by
  conv_lhs => rw [score_rows_loop]
  rw [hw]

/-! ### C1 -/

/-- C1, counterexample: on `ageNoneDB` — a crew with adult weighting enabled and a
single rating submitted by a member with no recorded age — `get_program_scores`
raises `TypeError` rather than including the rating unweighted. -/
theorem missing_age_raises_counterexample :
    get_program_scores ageNoneDB 1 "Total" = .error "TypeError" := by
  with_unfolding_all rfl

/-- With adult weighting enabled, the grouping loop raises `TypeError` as soon as
any fetched row carries no age (and any weighting failure is a `TypeError`). -/
theorem score_rows_loop_error_of_none_age (percent : Option Rat) (method : String) :
    ∀ (rows : List ScoreRow) (curP : Option Nat) (curS : List Rat)
      (acc : List (Nat × Rat)),
      (∃ r ∈ rows, r.age = none) →
      score_rows_loop true percent method rows curP curS acc = .error "TypeError" := by
  intro rows
  induction rows with
  | nil => intro _ _ _ hex; simp at hex
  | cons row rest ih =>
    intro curP curS acc hex
    rcases hage : row.age with _ | a
    · have hw : weight_score true percent row.age row.score = .error "TypeError" := by
        rw [hage]; rfl
      exact score_rows_loop_cons_error true percent method row rest curP curS acc _ hw
    · have hex' : ∃ r ∈ rest, r.age = none := by
        rcases hex with ⟨r, hr, hrage⟩
        rcases List.mem_cons.mp hr with h | h
        · subst h; rw [hage] at hrage; cases hrage
        · exact ⟨r, h, hrage⟩
      have hwshape : weight_score true percent row.age row.score =
          if a > 20 then
            (match percent with
             | none => Except.error "TypeError"
             | some pct => Except.ok (row.score * (pct / 100)))
          else Except.ok row.score := by
        rw [hage]; rfl
      by_cases h20 : a > 20
      · rcases percent with _ | pct
        · have hw : weight_score true none row.age row.score = .error "TypeError" := by
            rw [hwshape, if_pos h20]
          exact score_rows_loop_cons_error true none method row rest curP curS acc _ hw
        · have hw : weight_score true (some pct) row.age row.score =
              .ok (row.score * (pct / 100)) := by
            rw [hwshape, if_pos h20]
          rw [score_rows_loop_cons_ok true (some pct) method row rest curP curS acc _ hw]
          by_cases hne : curP ≠ some row.program_id
          · rw [if_pos hne]
            rcases curP with _ | pid
            · exact ih _ _ _ hex'
            · dsimp only
              by_cases hS : curS.isEmpty
              · rw [if_pos hS]
                exact ih _ _ _ hex'
              · rw [if_neg hS]
                have hnonempty : curS ≠ [] := by
                  simpa [List.isEmpty_iff] using hS
                rw [_calculate_aggregate_eq_ok curS method hnonempty]
                exact ih _ _ _ hex'
          · rw [if_neg hne]
            exact ih _ _ _ hex'
      · have hw : weight_score true percent row.age row.score = .ok row.score := by
          rw [hwshape, if_neg h20]
        rw [score_rows_loop_cons_ok true percent method row rest curP curS acc _ hw]
        by_cases hne : curP ≠ some row.program_id
        · rw [if_pos hne]
          rcases curP with _ | pid
          · exact ih _ _ _ hex'
          · dsimp only
            by_cases hS : curS.isEmpty
            · rw [if_pos hS]
              exact ih _ _ _ hex'
            · rw [if_neg hS]
              have hnonempty : curS ≠ [] := by
                simpa [List.isEmpty_iff] using hS
              rw [_calculate_aggregate_eq_ok curS method hnonempty]
              exact ih _ _ _ hex'
        · rw [if_neg hne]
          exact ih _ _ _ hex'

/-- C1 (amended): for a crew whose adult-weighting preference is enabled, a rating
fetched from a member with no recorded age makes `get_program_scores` raise a
`TypeError` (Python 3 refuses `None > 20`) instead of treating the member as
not-an-adult and completing. -/
theorem missing_age_raises (db : DB) (crew_id : Nat) (method : String)
    (hen : adult_weight_enabled_of db crew_id = true)
    (hrow : ∃ r ∈ fetch_score_rows db crew_id, r.age = none) :
    get_program_scores db crew_id method = .error "TypeError" := by
  unfold get_program_scores
  rw [hen]
  exact score_rows_loop_error_of_none_age _ method _ none [] [] hrow

/-- Witness for C1 (amended) on `ageNoneDB`. -/
theorem missing_age_raises_witness :
    get_program_scores ageNoneDB 1 "Average" = .error "TypeError" :=
  missing_age_raises ageNoneDB 1 "Average" (by with_unfolding_all decide)
    (by with_unfolding_all decide)

/-! ### C8 -/

/-- C8: the six peak multipliers are Baldy 2.0, Phillips 1.5, Tooth of Time 1.5,
Inspiration Point 1.0, Trail Peak 1.5 and Others/Mountaineering 1.2; the peak
sub-score is the sum of the six per-peak contributions, where a peak included in
the itinerary and desired by the crew contributes its aggregated Landmarks rating
times the multiplier times programFactor, a peak included but not desired
contributes the rating times programFactor only, and a peak the itinerary does not
include contributes 0 regardless of the preference. -/
theorem peak_score_spec (db : DB) (crew_id : Nat) (method : String)
    (itinerary : ItinRow) (crew_prefs : Option PrefsRow) (pref_key : String) (r : Rat) :
    (peak_multipliers "climb_baldy" = 2 ∧ peak_multipliers "climb_phillips" = 3 / 2 ∧
      peak_multipliers "climb_tooth" = 3 / 2 ∧
      peak_multipliers "climb_inspiration_point" = 1 ∧
      peak_multipliers "climb_trail_peak" = 3 / 2 ∧
      peak_multipliers "climb_others" = 6 / 5) ∧
    _calculate_peak_score db crew_id method itinerary crew_prefs =
      (peak_keys.map (peak_contribution db crew_id method itinerary crew_prefs)).sum ∧
    (itin_has_peak itinerary pref_key = true →
      peak_program_score db crew_id method pref_key = some r →
      (crew_wants_peak crew_prefs pref_key = true →
        peak_contribution db crew_id method itinerary crew_prefs pref_key =
          r * peak_multipliers pref_key * get_score_factor db "programFactor") ∧
      (crew_wants_peak crew_prefs pref_key = false →
        peak_contribution db crew_id method itinerary crew_prefs pref_key =
          r * get_score_factor db "programFactor")) ∧
    (itin_has_peak itinerary pref_key = false →
      peak_contribution db crew_id method itinerary crew_prefs pref_key = 0) := by
  refine ⟨⟨rfl, rfl, rfl, rfl, rfl, rfl⟩, rfl, ?_, ?_⟩
  · intro hhas hps
    have hc : peak_contribution db crew_id method itinerary crew_prefs pref_key =
        if crew_wants_peak crew_prefs pref_key then
          r * peak_multipliers pref_key * get_score_factor db "programFactor"
        else r * get_score_factor db "programFactor" := by
      unfold peak_contribution
      rw [hhas, hps]
      simp
    constructor
    · intro hw
      rw [hc, if_pos hw]
    · intro hw
      rw [hc, if_neg (by simp [hw])]
  · intro hhas
    unfold peak_contribution
    rw [hhas]
    simp

/-- Witness for C8 on `adultDB`: Baldy is included and desired, its aggregated
rating is 10, and the contribution is 10 times the Baldy multiplier times
programFactor. -/
theorem peak_score_spec_witness :
    peak_contribution adultDB 1 "Total"
        ({ mkItin 1 "12-1" "12-day" "C" with baldy_mountain := some true })
        (some wantsBaldyPrefs) "climb_baldy" =
      10 * peak_multipliers "climb_baldy" * get_score_factor adultDB "programFactor" :=
  ((peak_score_spec adultDB 1 "Total"
      ({ mkItin 1 "12-1" "12-day" "C" with baldy_mountain := some true })
      (some wantsBaldyPrefs) "climb_baldy" 10).2.2.1
    (by with_unfolding_all decide) (by with_unfolding_all decide)).1
    (by with_unfolding_all decide)

/-! ### C10 -/

/-- C10: the peak sub-scorer aggregates the crew's raw stored ratings with no
adult re-weighting, so on `adultDB` (adult weighting enabled at 50 percent, one
adult member rating the Baldy landmark program 10) the batch calculator
`get_program_scores` yields 5 for that program while the aggregate used inside
`_calculate_peak_score` is 10 — the two differ. -/
theorem peak_vs_batch_scores_differ :
    get_program_scores adultDB 1 "Total" = .ok [(1, 5)] ∧
    peak_program_score adultDB 1 "Total" "climb_baldy" = some 10 ∧
    dictLookup [(1, 5)] 1 = some 5 ∧ (5 : Rat) ≠ 10 := by
  refine ⟨by with_unfolding_all rfl, by with_unfolding_all rfl, rfl, ?_⟩
  with_unfolding_all decide

/-! ### Ranking helper lemmas -/

theorem add_rankings_length (i : Nat) (xs : List ScoredItinerary) :
    (add_rankings i xs).length = xs.length := by
  induction xs generalizing i with
  | nil => rfl
  | cons x t ih => simp [add_rankings, ih]

theorem add_rankings_map_ranking (i : Nat) (xs : List ScoredItinerary) :
    (add_rankings i xs).map (fun s => s.ranking) = List.range' i xs.length := by
  induction xs generalizing i with
  | nil => rfl
  | cons x t ih => simp [add_rankings, List.range'_succ, ih]

theorem mem_add_rankings {i : Nat} {xs : List ScoredItinerary} {y : ScoredItinerary}
    (hy : y ∈ add_rankings i xs) : ∃ x ∈ xs, ∃ j, y = { x with ranking := j } := by
  induction xs generalizing i with
  | nil => simp [add_rankings] at hy
  | cons x t ih =>
    rw [add_rankings] at hy
    rcases List.mem_cons.mp hy with h | h
    · exact ⟨x, List.mem_cons_self x t, i, h⟩
    · obtain ⟨x', hx', j, hj⟩ := ih h
      exact ⟨x', List.mem_cons_of_mem x hx', j, hj⟩

/-- Rank assignment only touches the `ranking` field, so any pairwise relation
that ignores that field survives it. -/
theorem add_rankings_pairwise {R : ScoredItinerary → ScoredItinerary → Prop}
    (hR : ∀ a b i j, R a b → R { a with ranking := i } { b with ranking := j })
    (i : Nat) (xs : List ScoredItinerary) (hp : xs.Pairwise R) :
    (add_rankings i xs).Pairwise R := by
  induction xs generalizing i with
  | nil => exact List.Pairwise.nil
  | cons x t ih =>
    rcases List.pairwise_cons.mp hp with ⟨hx, ht⟩
    rw [add_rankings]
    refine List.pairwise_cons.mpr ⟨?_, ih (i + 1) ht⟩
    intro y hy
    obtain ⟨x', hx', j, rfl⟩ := mem_add_rankings hy
    exact hR x x' i j (hx x' hx')

/-- Whenever the ranker returns a list, it is the rank-assigned stable descending
sort of the scored itineraries of the requested trek type. -/
theorem ranker_ok_shape (db : DB) (crew_id : Nat) (trek_type : String) (method : String)
    (l : List ScoredItinerary)
    (h : calculate_itinerary_scores db crew_id trek_type method = .ok l) :
    ∃ ps, get_program_scores db crew_id method = .ok ps ∧
      l = add_rankings 1 (((fetch_itineraries db trek_type).map
        (score_itinerary db crew_id trek_type method ps
          (fetchPrefs db crew_id))).insertionSort scoredGE) := by
  unfold calculate_itinerary_scores at h
  split at h
  · cases h
  · rename_i ps hps
    dsimp only at h
    split at h
    · rename_i hemp
      injection h with h
      refine ⟨ps, hps, ?_⟩
      rw [List.isEmpty_iff.mp hemp] at *
      simpa [add_rankings] using h.symm
    · injection h with h
      exact ⟨ps, hps, h.symm⟩

/-! ### C4 -/

/-- C4: whenever the ranker returns a list, the list is sorted in non-increasing
order of total score, its ranking fields are exactly 1..N in output order with no
duplicates and no gaps, and N is the number of itineraries of the requested trek
type. -/
theorem ranker_sorted_and_ranked (db : DB) (crew_id : Nat) (trek_type : String)
    (method : String) (l : List ScoredItinerary)
    (h : calculate_itinerary_scores db crew_id trek_type method = .ok l) :
    l.Pairwise (fun a b => b.total_score ≤ a.total_score) ∧
      l.map (fun s => s.ranking) = List.range' 1 l.length ∧
      l.length =
        (db.itineraries.filter (fun i => decide (i.trek_type = trek_type))).length := by
  obtain ⟨ps, -, rfl⟩ := ranker_ok_shape db crew_id trek_type method l h
  set res := (fetch_itineraries db trek_type).map
    (score_itinerary db crew_id trek_type method ps (fetchPrefs db crew_id)) with hres
  haveI : IsTotal ScoredItinerary scoredGE :=
    ⟨fun a b => le_total b.total_score a.total_score⟩
  haveI : IsTrans ScoredItinerary scoredGE :=
    ⟨fun _ _ _ h1 h2 => le_trans h2 h1⟩
  have hsorted : (res.insertionSort scoredGE).Pairwise scoredGE :=
    List.sorted_insertionSort scoredGE res
  refine ⟨?_, ?_, ?_⟩
  · exact add_rankings_pairwise (fun _ _ _ _ hab => hab) 1 _ hsorted
  · rw [add_rankings_map_ranking, add_rankings_length]
  · rw [add_rankings_length, List.length_insertionSort, hres, List.length_map]
    unfold fetch_itineraries
    rw [List.length_insertionSort]

/-- Witness for C4 on `rankDB`. -/
theorem ranker_sorted_and_ranked_witness :
    rankOut.Pairwise (fun a b => b.total_score ≤ a.total_score) ∧
      rankOut.map (fun s => s.ranking) = List.range' 1 rankOut.length ∧
      rankOut.length =
        (rankDB.itineraries.filter (fun i => decide (i.trek_type = "12-day"))).length :=
  ranker_sorted_and_ranked rankDB 1 "12-day" "Total" rankOut (by with_unfolding_all rfl)

/-! ### C5 -/

/-- C5: when the itineraries of the requested trek type carry pairwise distinct
codes, any two output entries with equal total score appear in catalog
(itinerary-code) order — the descending sort is stable over the code-ordered
input, so tie handling is deterministic. -/
theorem ranker_tie_break_stable (db : DB) (crew_id : Nat) (trek_type : String)
    (method : String) (l : List ScoredItinerary)
    (h : calculate_itinerary_scores db crew_id trek_type method = .ok l)
    (hcodes : ((db.itineraries.filter (fun i => decide (i.trek_type = trek_type))).map
      (fun i => i.itinerary_code)).Nodup) :
    l.Pairwise (fun a b => a.total_score = b.total_score →
      a.itinerary.itinerary_code < b.itinerary.itinerary_code) := by
  obtain ⟨ps, -, rfl⟩ := ranker_ok_shape db crew_id trek_type method l h
  set itins := fetch_itineraries db trek_type with hitins
  set res := itins.map
    (score_itinerary db crew_id trek_type method ps (fetchPrefs db crew_id)) with hres
  haveI : IsTotal ItinRow itinLE := ⟨fun a b => le_total a.itinerary_code b.itinerary_code⟩
  haveI : IsTrans ItinRow itinLE := ⟨fun _ _ _ h1 h2 => le_trans h1 h2⟩
  have hitinsorted : itins.Pairwise itinLE := List.sorted_insertionSort itinLE _
  have hnodup_itins : (itins.map (fun i => i.itinerary_code)).Nodup := by
    have hperm : (itins.map (fun i => i.itinerary_code)).Perm
        ((db.itineraries.filter (fun i => decide (i.trek_type = trek_type))).map
          (fun i => i.itinerary_code)) :=
      (List.perm_insertionSort itinLE _).map _
    exact hperm.nodup_iff.mpr hcodes
  have hstrict : itins.Pairwise (fun a b => a.itinerary_code < b.itinerary_code) := by
    have hne : itins.Pairwise (fun a b => a.itinerary_code ≠ b.itinerary_code) :=
      List.pairwise_map.mp hnodup_itins
    exact (hitinsorted.and hne).imp (fun hab => lt_of_le_of_ne hab.1 hab.2)
  have hres_strict : res.Pairwise (fun a b =>
      a.itinerary.itinerary_code < b.itinerary.itinerary_code) := by
    rw [hres]
    exact List.pairwise_map.mpr (hstrict.imp (fun hab => hab))
  have hres_nodup : res.Nodup :=
    hres_strict.imp (fun hab heq => by rw [heq] at hab; exact lt_irrefl _ hab)
  set sorted := res.insertionSort scoredGE with hsorted
  have hsnodup : sorted.Nodup :=
    (List.perm_insertionSort scoredGE res).nodup_iff.mpr hres_nodup
  apply add_rankings_pairwise (fun _ _ _ _ hab => hab)
  rw [List.pairwise_iff_get]
  intro i j hij htot
  have hai : sorted.get i ∈ res :=
    (List.mem_insertionSort scoredGE).mp (List.get_mem sorted i.1 i.2)
  have hbj : sorted.get j ∈ res :=
    (List.mem_insertionSort scoredGE).mp (List.get_mem sorted j.1 j.2)
  obtain ⟨pi, hpi⟩ := List.mem_iff_get.mp hai
  obtain ⟨pj, hpj⟩ := List.mem_iff_get.mp hbj
  rcases lt_trichotomy (pi : Nat) (pj : Nat) with hpp | hpp | hpp
  · have hlt := List.pairwise_iff_get.mp hres_strict pi pj hpp
    rw [hpi, hpj] at hlt
    exact hlt
  · exfalso
    have hab : sorted.get i = sorted.get j := by
      rw [← hpi, ← hpj]
      congr 1
      exact Fin.ext hpp
    exact absurd (hsnodup.get_inj_iff.mp hab) (Fin.ne_of_lt hij)
  · exfalso
    have hpw : ([pj, pi] : List (Fin res.length)).Pairwise (·.val < ·.val) := by
      refine List.pairwise_cons.mpr ⟨?_, List.pairwise_singleton _ _⟩
      intro y hy
      have hy' := List.mem_singleton.mp hy
      subst hy'
      exact hpp
    have hsub : List.Sublist [sorted.get j, sorted.get i] res := by
      have hmap := List.map_get_sublist hpw
      rw [List.map_cons, List.map_cons, List.map_nil, hpj, hpi] at hmap
      exact hmap
    have hge : scoredGE (sorted.get j) (sorted.get i) := le_of_eq htot
    have hstab : List.Sublist [sorted.get j, sorted.get i] sorted :=
      List.pair_sublist_insertionSort hge hsub
    obtain ⟨is, his, hispw⟩ := List.sublist_eq_map_get hstab
    rcases is with _ | ⟨q1, is2⟩
    · simp at his
    rcases is2 with _ | ⟨q2, is3⟩
    · simp at his
    rcases is3 with _ | ⟨q3, is4⟩
    · simp only [List.map_cons, List.map_nil] at his
      have h1 : sorted.get j = sorted.get q1 := by injection his
      have h2 : sorted.get i = sorted.get q2 := by
        have hthis := his
        injection hthis with _ h2
        injection h2
      have hq : q1 < q2 := List.rel_of_pairwise_cons hispw (List.mem_cons_self q2 [])
      have hjq : j = q1 := hsnodup.get_inj_iff.mp h1
      have hiq : i = q2 := hsnodup.get_inj_iff.mp h2
      rw [← hjq, ← hiq] at hq
      exact absurd hij (not_lt.mpr (le_of_lt hq))
    · simp at his

/-- Witness for C5 on `rankDB` (two itineraries with distinct codes and equal
total scores). -/
theorem ranker_tie_break_stable_witness :
    rankOut.Pairwise (fun a b => a.total_score = b.total_score →
      a.itinerary.itinerary_code < b.itinerary.itinerary_code) :=
  ranker_tie_break_stable rankDB 1 "12-day" "Total" rankOut
    (by with_unfolding_all rfl) (by with_unfolding_all decide)

end PhilSelect
